import Mathlib

/-
Verification of the dashboard route handlers of the sassy-goals application
(src/routes/dashboard.rs) against its natural-language specification.

The embedding models the SQLite tables touched by the handlers as in-memory
lists, each inline SQL statement as the corresponding pure list operation, and
each actix handler as a pure function.  External collaborators (identity
extraction, CSRF verification, template rendering, the tone table) are modelled
at their interface: the authenticated user is a user id parameter, CSRF
verification is a boolean parameter, and a rendered template is a `Body` value
recording which template was rendered with which repository data.
-/

namespace SassyGoals

/-- A row of the `goals` table: `goals(id, title, description, stage, deadline,
group_id)`.  `stage` is an `i64` column (an `i16` on the forms); `deadline` is
an optional date, modelled as an opaque integer. -/
structure Goal where
  id : Int
  title : String
  description : Option String
  stage : Int
  deadline : Option Int
  group_id : Int
deriving DecidableEq

/-- A row of the `groups` table: `groups(id, title, description, tone_id,
user_id)`. -/
structure Group where
  id : Int
  title : String
  description : Option String
  tone_id : Int
  user_id : Int
deriving DecidableEq

/-- The database state the handlers read and write.  The `tones` table is
read-only for this core and none of its data decides a claim, so it is not
modelled. -/
structure DB where
  groups : List Group
  goals : List Goal
deriving DecidableEq

/-- The error outcomes of a handler.  `Panic` models a Rust panic (an index out
of bounds while partitioning), which actix surfaces as a server error distinct
from the typed `actix_web::Error` values. -/
inductive HError where
  | NotFound
  | BadRequest
  | InternalError
  | CsrfError
  | Panic
deriving DecidableEq

/-- Severity of a notification directive (`NotificationVariant` in the htmx
helper module; only `Success` is used by these handlers). -/
inductive NotificationVariant where
  | Success
deriving DecidableEq

/-- A response header of interest: the htmx trigger directives and the redirect
`Location` header.  The three `updateLocation` constructors record through
which trigger header (`HX-Trigger-After-Swap`, `HX-Trigger-After-Settle`,
`HX-Trigger`) the navigation-update directive was attached. -/
inductive Directive where
  | notification (title message : String) (variant : NotificationVariant) (autoDismiss : Bool)
  | updateLocationAfterSwap
  | updateLocationAfterSettle
  | updateLocationTrigger
  | location (path : String)
deriving DecidableEq

/-- Whether a directive is a notification directive. -/
def Directive.isNotification : Directive → Bool
  | .notification _ _ _ _ => true
  | _ => false

/-- Whether a directive is an "update navigation" (`updateLocation`)
directive, through any of the three htmx trigger headers. -/
def Directive.isUpdateLocation : Directive → Bool
  | .updateLocationAfterSwap => true
  | .updateLocationAfterSettle => true
  | .updateLocationTrigger => true
  | _ => false

/-- Which template a response body came from, carrying the repository data the
template renders.  `Page` constructors are full pages (navigation shell
included); `Fragment` constructors are the bare partials. -/
inductive Body where
  | empty
  | dashboardPage (user : Int) (groups : List Group)
  | dashboardFragment (groups : List Group)
  | newGroupPage (user : Int) (groups : List Group)
  | newGroupFragment
  | editGroupPage (user : Int) (group : Group) (groups : List Group)
  | editGroupFragment (group : Group)
  | showGroupPage (user : Int) (group : Group) (goalsInStages : List (List Goal))
  | showGroupFragment (group : Group) (goalsInStages : List (List Goal))
  | newGoalPage (user : Int) (group : Group) (goalsInStages : List (List Goal)) (selectedStage : Nat)
  | newGoalFragment (group : Group) (selectedStage : Nat)
  | showGoalPage (user : Int) (goal : Goal) (group : Group) (goalsInStages : List (List Goal))
  | showGoalFragment (goal : Goal) (group : Group)
  | editGoalPage (user : Int) (goal : Goal) (group : Group) (goalsInStages : List (List Goal))
  | editGoalFragment (goal : Goal) (group : Group)
deriving DecidableEq

/-- The shape of a response body: full page, bare fragment, or empty. -/
inductive BodyShape where
  | fullPage
  | fragment
  | empty
deriving DecidableEq

/-- Shape of each body. -/
def Body.shape : Body → BodyShape
  | .empty => .empty
  | .dashboardPage _ _ => .fullPage
  | .dashboardFragment _ => .fragment
  | .newGroupPage _ _ => .fullPage
  | .newGroupFragment => .fragment
  | .editGroupPage _ _ _ => .fullPage
  | .editGroupFragment _ => .fragment
  | .showGroupPage _ _ _ => .fullPage
  | .showGroupFragment _ _ => .fragment
  | .newGoalPage _ _ _ _ => .fullPage
  | .newGoalFragment _ _ => .fragment
  | .showGoalPage _ _ _ _ => .fullPage
  | .showGoalFragment _ _ => .fragment
  | .editGoalPage _ _ _ _ => .fullPage
  | .editGoalFragment _ _ => .fragment

/-- An HTTP response: status code, trigger/location headers, body. -/
structure Response where
  status : Nat
  headers : List Directive
  body : Body
deriving DecidableEq

/-- Number of notification directives attached to a response. -/
def Response.notificationCount (r : Response) : Nat :=
  r.headers.countP Directive.isNotification

/-- Number of updateLocation directives attached to a response. -/
def Response.updateLocationCount (r : Response) : Nat :=
  r.headers.countP Directive.isUpdateLocation

/-- Whether a handler outcome is a success response. -/
def isOkResponse (e : Except HError Response) : Bool :=
  match e with
  | .ok _ => true
  | .error _ => false

/-- Build a response from status, headers, and body. -/
def mkResp (status : Nat) (headers : List Directive) (body : Body) : Response :=
  { status := status, headers := headers, body := body }

/-- `SELECT * FROM groups WHERE user_id = $1` (used by several handlers). -/
def groupsForUser (db : DB) (uid : Int) : List Group :=
  db.groups.filter (fun g => g.user_id == uid)

/-- `SELECT ... FROM groups WHERE user_id = $1 AND id = $2` with `fetch_one`:
the first matching row, or `none` (sqlx `RowNotFound`) when there is none. -/
def findGroupOwned (db : DB) (uid gid : Int) : Option Group :=
  db.groups.find? (fun g => g.user_id == uid && g.id == gid)

/-- Modelled from the spec: `get_group_with_tone(user_id, group_id) ->
Group|NotFound` — the body of `queries::get_group_with_info` is outside the
given sources.  The spec scopes the lookup by both the owner id and the group
id; the tone join only feeds rendering and is dropped. -/
def get_group_with_info (db : DB) (uid gid : Int) : Option Group :=
  findGroupOwned db uid gid

/-- Modelled from the spec: `list_goals(group_id)` — the body of
`queries::get_goals_for_group` is outside the given sources.  It returns the
goals of the group, in stored order. -/
def get_goals_for_group (db : DB) (gid : Int) : List Goal :=
  db.goals.filter (fun g => g.group_id == gid)

/-- Rust `as usize` applied to an `i64`: a two's-complement wrap into
`[0, 2^64)`, so a negative stage becomes a huge index. -/
def i64ToUsize (n : Int) : Nat :=
  (n % (2 : Int) ^ 64).toNat

/-- The loop body of `group_goals_by_stage`: if `goal.stage < 5` push the goal
onto `goals_in_stages[goal.stage as usize]` — indexing past the end of the
bucket vector is a Rust panic, modelled as `none` — else log a diagnostic and
skip the goal. -/
def partitionStep (buckets : List (List Goal)) (goal : Goal) :
    Option (List (List Goal)) :=
  if goal.stage < 5 then
    let idx := i64ToUsize goal.stage
    if h : idx < buckets.length then
      some (buckets.set idx (buckets.get ⟨idx, h⟩ ++ [goal]))
    else
      none
  else
    some buckets

/-- `group_goals_by_stage` (src/routes/dashboard.rs): start from
`vec![vec![]; 4]` and run `partitionStep` over the goals in order.  A `none`
result is the panic raised when a goal's stage indexes past the 4 buckets,
which happens for stage `4` and for a negative stage wrapped by `as usize`. -/
def group_goals_by_stage (goals : List Goal) : Option (List (List Goal)) :=
  goals.foldlM partitionStep [[], [], [], []]

/-- The id SQLite assigns to a freshly inserted group row (`RETURNING id`),
modelled as one past the largest existing id. -/
def freshGroupId (db : DB) : Int :=
  (db.groups.map Group.id).foldl max 0 + 1

/-- The id SQLite assigns to a freshly inserted goal row. -/
def freshGoalId (db : DB) : Int :=
  (db.goals.map Goal.id).foldl max 0 + 1

/-- The group create/edit form `{title, description?, tone_id, csrftoken}`;
CSRF verification is modelled as a boolean handler parameter. -/
structure GroupForm where
  title : String
  description : Option String
  tone_id : Int
deriving DecidableEq

/-- The goal create/edit form `{title, description?, deadline?, stage,
csrftoken}`; `stage` is an `i16` field. -/
structure GoalForm where
  title : String
  description : Option String
  deadline : Option Int
  stage : Int
deriving DecidableEq

/-- `GET /dashboard`: list the user's groups; a fragment request that is not
boosted gets the dashboard partial, every other request the full page; either
way one `HX-Trigger-After-Swap: updateLocation` header is attached. -/
def dashboard (db : DB) (uid : Int) (is_hx boosted : Bool) : Response :=
  let groups := groupsForUser db uid
  let body := if is_hx && !boosted then Body.dashboardFragment groups
    else Body.dashboardPage uid groups
  mkResp 200 [Directive.updateLocationAfterSwap] body

/-- `GET /groups/new`: on a fragment request (the boosted flag is not
consulted) return the partial with an updateLocation header; otherwise the
full page with no trigger header. -/
def new_group (db : DB) (uid : Int) (is_hx : Bool) : Response :=
  if is_hx then
    mkResp 200 [Directive.updateLocationAfterSwap] Body.newGroupFragment
  else
    mkResp 200 [] (Body.newGroupPage uid (groupsForUser db uid))

/-- `POST /groups/new`: verify CSRF, insert the group for the authenticated
user, and redirect (303) to the new group's page with one notification
directive. -/
def post_new_group (db : DB) (uid : Int) (form : GroupForm) (csrf_ok : Bool) :
    DB × Except HError Response :=
  if !csrf_ok then (db, .error .CsrfError)
  else
    let gid := freshGroupId db
    let newGroupRow : Group :=
      { id := gid, title := form.title, description := form.description,
        tone_id := form.tone_id, user_id := uid }
    let db2 := { db with groups := db.groups ++ [newGroupRow] }
    let notif := Directive.notification ("Created " ++ form.title)
      "New Group Created!" NotificationVariant.Success true
    (db2, .ok (mkResp 303 [notif, Directive.location ("/groups/" ++ toString gid)]
      Body.empty))

/-- `GET /groups/{id}/edit`: fetch the group scoped by owner (`RowNotFound`
maps to `NotFound`); fragment requests (boosted not consulted) get the partial
with an updateLocation header, others the full page without one. -/
def edit_group (db : DB) (uid gid : Int) (is_hx : Bool) : Except HError Response :=
  match findGroupOwned db uid gid with
  | none => .error .NotFound
  | some group =>
    if is_hx then
      .ok (mkResp 200 [Directive.updateLocationAfterSwap]
        (Body.editGroupFragment group))
    else
      .ok (mkResp 200 [] (Body.editGroupPage uid group (groupsForUser db uid)))

/-- `POST /groups/{id}/edit`: verify CSRF, then
`UPDATE groups SET ... WHERE id = $4 AND user_id = $5` (an `execute`, which
succeeds even when zero rows match); a fragment request gets the refreshed
dashboard partial with one notification and one updateLocation header, other
requests a bare 303 redirect to `/dashboard`. -/
def post_edit_group (db : DB) (uid gid : Int) (form : GroupForm)
    (csrf_ok is_hx : Bool) : DB × Except HError Response :=
  if !csrf_ok then (db, .error .CsrfError)
  else
    let db2 := { db with groups := db.groups.map (fun g =>
      if g.id == gid && g.user_id == uid then
        { g with title := form.title, description := form.description, tone_id := form.tone_id }
      else g) }
    if is_hx then
      let notif := Directive.notification (form.title ++ " Updated")
        "Your group has been updated" NotificationVariant.Success true
      (db2, .ok (mkResp 200 [notif, Directive.updateLocationAfterSettle]
        (Body.dashboardFragment (groupsForUser db2 uid))))
    else
      (db2, .ok (mkResp 303 [Directive.location "/dashboard"] Body.empty))

/-- `GET /groups/{id}`: fetch the group scoped by owner, fetch its goals,
partition them by stage (a panic propagates); a non-boosted fragment request
gets the board partial with an updateLocation header, every other request the
full page without one. -/
def get_group_route (db : DB) (uid gid : Int) (is_hx boosted : Bool) :
    Except HError Response :=
  match get_group_with_info db uid gid with
  | none => .error .NotFound
  | some group =>
    match group_goals_by_stage (get_goals_for_group db gid) with
    | none => .error .Panic
    | some goals_in_stages =>
      if is_hx && !boosted then
        .ok (mkResp 200 [Directive.updateLocationAfterSwap]
          (Body.showGroupFragment group goals_in_stages))
      else
        .ok (mkResp 200 [] (Body.showGroupPage uid group goals_in_stages))

/-- `DELETE /groups/{id}`: `DELETE FROM groups WHERE user_id = $1 AND id = $2`
then an empty 200.  The statement runs through `execute`, which reports the
number of affected rows and never yields `RowNotFound`, so the handler's
`RowNotFound => NotFound` arm is unreachable and a delete matching zero rows
still answers 200. -/
def delete_group (db : DB) (uid gid : Int) : DB × Except HError Response :=
  let db2 := { db with groups := db.groups.filter (fun g => !(g.user_id == uid && g.id == gid)) }
  (db2, .ok (mkResp 200 [] Body.empty))

/-- `GET /groups/{id}/goals/new` with optional `stage` query parameter
(default 0): fetch the group scoped by owner; a fragment request (boosted not
consulted) gets the form partial with an updateLocation header, others the
full page (whose board partition can panic) without one. -/
def new_goal (db : DB) (uid gid : Int) (stageQuery : Option Nat) (is_hx : Bool) :
    Except HError Response :=
  let selectedStage := stageQuery.getD 0
  match get_group_with_info db uid gid with
  | none => .error .NotFound
  | some group =>
    if is_hx then
      .ok (mkResp 200 [Directive.updateLocationAfterSwap]
        (Body.newGoalFragment group selectedStage))
    else
      match group_goals_by_stage (get_goals_for_group db gid) with
      | none => .error .Panic
      | some goals_in_stages =>
        .ok (mkResp 200 []
          (Body.newGoalPage uid group goals_in_stages selectedStage))

/-- `POST /groups/{id}/goals/new`: verify CSRF, fetch the group scoped by
owner (`RowNotFound` maps to `NotFound`), then insert the goal with the
caller-supplied form fields — the stage value is inserted as given, with no
range check.  A fragment request then re-renders the board partial (which can
panic on a bad stage) with one notification and one updateLocation header;
other requests get a bare 303 redirect to the group page. -/
def post_new_goal (db : DB) (uid gid : Int) (form : GoalForm)
    (csrf_ok is_hx : Bool) : DB × Except HError Response :=
  if !csrf_ok then (db, .error .CsrfError)
  else
    match findGroupOwned db uid gid with
    | none => (db, .error .NotFound)
    | some group =>
      let newGoalRow : Goal :=
        { id := freshGoalId db, title := form.title,
          description := form.description, stage := form.stage,
          deadline := form.deadline, group_id := group.id }
      let db2 := { db with goals := db.goals ++ [newGoalRow] }
      if is_hx then
        match get_group_with_info db2 uid group.id with
        | none => (db2, .error .NotFound)
        | some group2 =>
          match group_goals_by_stage (get_goals_for_group db2 group.id) with
          | none => (db2, .error .Panic)
          | some goals_in_stages =>
            let notif := Directive.notification ("Created " ++ form.title)
              "Your goal has been created" NotificationVariant.Success true
            (db2, .ok (mkResp 200 [notif, Directive.updateLocationAfterSettle]
              (Body.showGroupFragment group2 goals_in_stages)))
      else
        (db2, .ok (mkResp 303 [Directive.location ("/groups/" ++ toString gid)]
          Body.empty))

/-- `GET /groups/{group_id}/goals/{goal_id}`: fetch the group scoped by owner;
a fragment request queries the goal directly
(`SELECT * FROM goals WHERE id = $1 AND group_id = $2`, `RowNotFound` maps to
`NotFound`) and returns the goal partial with no trigger header; a full-page
request fetches the group's goal list, partitions it (which can panic), scans
the list for the goal id, signals `NotFound` if absent, and returns the full
page with no trigger header. -/
def get_goal_route (db : DB) (uid gid goalId : Int) (is_hx : Bool) :
    Except HError Response :=
  match get_group_with_info db uid gid with
  | none => .error .NotFound
  | some group =>
    if is_hx then
      match db.goals.find? (fun g => g.id == goalId && g.group_id == gid) with
      | none => .error .NotFound
      | some goal =>
        .ok (mkResp 200 [] (Body.showGoalFragment goal group))
    else
      let goals := get_goals_for_group db gid
      match group_goals_by_stage goals with
      | none => .error .Panic
      | some goals_in_stages =>
        match goals.find? (fun g => g.id == goalId) with
        | none => .error .NotFound
        | some goal =>
          .ok (mkResp 200 [] (Body.showGoalPage uid goal group goals_in_stages))

/-- `GET /groups/{group_id}/goals/{goal_id}/edit`: like the goal detail route,
but in the fragment branch the direct goal query maps every error — including
`RowNotFound` — to `InternalError`.  Neither branch attaches a trigger
header. -/
def edit_goal (db : DB) (uid gid goalId : Int) (is_hx : Bool) :
    Except HError Response :=
  match get_group_with_info db uid gid with
  | none => .error .NotFound
  | some group =>
    if is_hx then
      match db.goals.find? (fun g => g.id == goalId && g.group_id == gid) with
      | none => .error .InternalError
      | some goal =>
        .ok (mkResp 200 [] (Body.editGoalFragment goal group))
    else
      let goals := get_goals_for_group db gid
      match group_goals_by_stage goals with
      | none => .error .Panic
      | some goals_in_stages =>
        match goals.find? (fun g => g.id == goalId) with
        | none => .error .NotFound
        | some goal =>
          .ok (mkResp 200 [] (Body.editGoalPage uid goal group goals_in_stages))

/-- `POST /groups/{group_id}/goals/{goal_id}/edit`: verify CSRF, fetch the
group scoped by owner (`RowNotFound` maps to `NotFound`), then
`UPDATE goals SET (title, description, stage, deadline) = ... WHERE id = $5
AND group_id = $6` through `execute`.  A fragment request re-renders the board
partial (which can panic) with one notification and one updateLocation
header; other requests get a bare 303 redirect. -/
def post_edit_goal (db : DB) (uid gid goalId : Int) (form : GoalForm)
    (csrf_ok is_hx : Bool) : DB × Except HError Response :=
  if !csrf_ok then (db, .error .CsrfError)
  else
    match findGroupOwned db uid gid with
    | none => (db, .error .NotFound)
    | some group =>
      let db2 := { db with goals := db.goals.map (fun g =>
        if g.id == goalId && g.group_id == group.id then
          { g with title := form.title, description := form.description, stage := form.stage, deadline := form.deadline }
        else g) }
      if is_hx then
        match get_group_with_info db2 uid group.id with
        | none => (db2, .error .NotFound)
        | some group2 =>
          match group_goals_by_stage (get_goals_for_group db2 group.id) with
          | none => (db2, .error .Panic)
          | some goals_in_stages =>
            let notif := Directive.notification (form.title ++ " updated")
              "Your goal was updated" NotificationVariant.Success true
            (db2, .ok (mkResp 200 [notif, Directive.updateLocationTrigger]
              (Body.showGroupFragment group2 goals_in_stages)))
      else
        (db2, .ok (mkResp 303 [Directive.location ("/groups/" ++ toString gid)]
          Body.empty))

/-- `PATCH /groups/{group_id}/goals/{goal_id}/stage?stage=`: fetch the group
id scoped by owner (`RowNotFound` maps to `NotFound`), then reject a stage
outside `[0,4]` with `BadRequest`, then
`UPDATE goals SET stage = $1 WHERE id = $2 AND group_id = $3` through
`execute` (zero matching rows is still a success) and answer an empty 200. -/
def patch_goal_tone (db : DB) (uid gid goalId stage : Int) :
    DB × Except HError Response :=
  match db.groups.find? (fun g => g.user_id == uid && g.id == gid) with
  | none => (db, .error .NotFound)
  | some _ =>
    if stage > 4 ∨ stage < 0 then
      (db, .error .BadRequest)
    else
      let db2 := { db with goals := db.goals.map (fun g =>
        if g.id == goalId && g.group_id == gid then { g with stage := stage }
        else g) }
      (db2, .ok (mkResp 200 [] Body.empty))

/-- `DELETE /groups/{group_id}/goals/{goal_id}`: fetch the group id scoped by
owner (`RowNotFound` maps to `NotFound`), then
`DELETE FROM goals WHERE group_id = $1 AND id = $2` through `execute` (zero
matching rows is still a success) and answer an empty 200. -/
def delete_goal (db : DB) (uid gid goalId : Int) : DB × Except HError Response :=
  match db.groups.find? (fun g => g.user_id == uid && g.id == gid) with
  | none => (db, .error .NotFound)
  | some _ =>
    let db2 := { db with goals := db.goals.filter (fun g => !(g.group_id == gid && g.id == goalId)) }
    (db2, .ok (mkResp 200 [] Body.empty))

/-- Modelled from the spec: the Response Negotiator decision table
`negotiate(isFragment, boosted) -> ResponseShape`: a non-fragment request gets
a full page, a boosted fragment request still gets a full page, and only a
non-boosted fragment request gets a bare fragment. -/
def negotiate (isFragment boosted : Bool) : BodyShape :=
  if isFragment && !boosted then .fragment else .fullPage

/-- The goal a goal-detail body renders, if any. -/
def renderedGoal : Body → Option Goal
  | .showGoalFragment goal _ => some goal
  | .showGoalPage _ goal _ _ => some goal
  | _ => none

/-- A sample group owned by user 1. -/
def gA : Group :=
  { id := 1, title := "Fitness", description := none, tone_id := 1, user_id := 1 }

/-- A sample goal of group 1 at stage 0. -/
def goal0 : Goal :=
  { id := 10, title := "run", description := none, stage := 0, deadline := none,
    group_id := 1 }

/-- A sample goal of group 1 at the terminal stage 4. -/
def goal4 : Goal :=
  { id := 11, title := "rest", description := none, stage := 4, deadline := none,
    group_id := 1 }

/-- A sample database: group 1 owned by user 1, holding goal 10 at stage 0. -/
def db1 : DB :=
  { groups := [gA], goals := [goal0] }

/-- A sample database whose only goal sits at stage 4. -/
def dbStage4 : DB :=
  { groups := [gA], goals := [goal4] }

/-- A sample group form. -/
def formG : GroupForm :=
  { title := "Music", description := none, tone_id := 1 }

/-- A sample goal form with an out-of-range stage value. -/
def formStage1000 : GoalForm :=
  { title := "practice", description := none, deadline := none, stage := 1000 }

/-- The goal row the creation route inserts: fresh id, the caller's form
fields (stage included, unchecked), and the target group id. -/
def insertedGoal (db : DB) (form : GoalForm) (gid : Int) : Goal :=
  { id := freshGoalId db, title := form.title, description := form.description,
    stage := form.stage, deadline := form.deadline, group_id := gid }

/-- Scanning a filtered list equals scanning the original list with the
conjunction of the scan predicate and the filter predicate. -/
theorem find?_filter_comm {α : Type} (l : List α) (p q : α → Bool) :
    (l.filter q).find? p = l.find? (fun a => p a && q a) := by
  induction l with
  | nil => rfl
  | cons a t ih =>
    by_cases hq : q a
    · by_cases hp : p a
      · simp [List.filter_cons, hq, List.find?_cons, hp]
      · simp [List.filter_cons, hq, List.find?_cons, hp, ih]
    · simp [List.filter_cons, hq, List.find?_cons, ih]

/-- Folding the partition step over goals whose stages are all nonnegative and
different from 4 never panics: stages 0-3 land in a bucket and stages 5 and
above are skipped. -/
theorem foldlM_partitionStep_isSome (goals : List Goal) :
    ∀ buckets : List (List Goal), buckets.length = 4 →
      (∀ g ∈ goals, 0 ≤ g.stage ∧ g.stage ≠ 4) →
      ∃ bs, goals.foldlM partitionStep buckets = some bs := by
  induction goals with
  | nil => exact fun buckets _ _ => ⟨buckets, rfl⟩
  | cons a t ih =>
    intro buckets hlen h
    have ha := h a (List.mem_cons_self a t)
    by_cases h5 : a.stage < 5
    · have hidx : i64ToUsize a.stage < buckets.length := by
        unfold i64ToUsize
        rw [hlen]
        have h64 : (2 : Int) ^ 64 = 18446744073709551616 := by norm_num
        rw [h64]
        omega
      obtain ⟨bs, hbs⟩ := ih
        (buckets.set (i64ToUsize a.stage) (buckets.get ⟨i64ToUsize a.stage, hidx⟩ ++ [a]))
        (by rw [List.length_set, hlen])
        (fun g hg => h g (List.mem_cons_of_mem a hg))
      refine ⟨bs, ?_⟩
      rw [List.foldlM_cons]
      simp only [partitionStep, if_pos h5, hidx, dite_true, dif_pos hidx]
      exact hbs
    · obtain ⟨bs, hbs⟩ := ih buckets hlen (fun g hg => h g (List.mem_cons_of_mem a hg))
      refine ⟨bs, ?_⟩
      rw [List.foldlM_cons]
      simp only [partitionStep, if_neg h5]
      exact hbs

/-- C1: the claim states that every goal whose stage lies outside [0,3] —
including stage 4 and negative stages — is omitted from all buckets with only
a recorded diagnostic and the partition never fails.  The code guards the
4-bucket vector with `stage < 5`: a goal at stage 4, and a goal at a negative
stage (wrapped huge by `as usize`), panic with an index out of bounds; only
stages 5 and above reach the skip-with-diagnostic branch, while in-range goals
partition normally. -/
theorem c1_partition_panics_on_stage4_and_negative :
    group_goals_by_stage [goal4] = none
    ∧ group_goals_by_stage [{ goal4 with stage := -1 }] = none
    ∧ group_goals_by_stage [{ goal4 with stage := 7 }] = some [[], [], [], []]
    ∧ group_goals_by_stage [goal0] = some [[goal0], [], [], []] := by
  decide

/-- C9: a stage patch on a group the requester does not own answers NotFound
even when the supplied stage is also out of range: the ownership lookup runs
before the stage-range check, so the ownership failure takes precedence. -/
theorem c9_ownership_precedes_stage_validation (db : DB) (uid gid goalId stage : Int)
    (hnotown : ∀ g ∈ db.groups, ¬(g.user_id = uid ∧ g.id = gid))
    (hbad : stage < 0 ∨ 4 < stage) :
    patch_goal_tone db uid gid goalId stage = (db, .error .NotFound) := by
  have hfind : db.groups.find? (fun g => g.user_id == uid && g.id == gid) = none := by
    apply List.find?_eq_none.mpr
    intro g hg
    simp only [Bool.and_eq_true, beq_iff_eq, not_and]
    exact fun h1 h2 => hnotown g hg ⟨h1, h2⟩
  simp [patch_goal_tone, hfind]

/-- Witness for C9: user 2 patches a goal of user 1's group 1 with the
out-of-range stage 9 and receives NotFound, not BadRequest. -/
theorem c9_ownership_precedes_stage_validation_witness :
    patch_goal_tone db1 2 1 10 9 = (db1, .error .NotFound) :=
  c9_ownership_precedes_stage_validation db1 2 1 10 9 (by decide) (by decide)

/-- C10 counterexample: user 1 owns group 1 and no goal with id 999 exists in
it, yet a stage patch with stage 9 answers BadRequest rather than the empty
success the claim promises for every such request. -/
theorem c10_patch_missing_goal_out_of_range_stage :
    patch_goal_tone db1 1 1 999 9 = (db1, Except.error HError.BadRequest) := rfl

/-- C10 amended: for every goal-delete request, and every stage-patch request
whose stage lies in [0,4], where the requester owns the group but no goal with
the given id exists in that group, the handler answers an empty 200 success
(the update or delete affects zero rows, no NotFound) and the stored goals are
unchanged. -/
theorem c10_zero_row_update_and_delete_succeed (db : DB) (uid gid goalId stage : Int)
    (hgrp : ∃ g ∈ db.groups, g.user_id = uid ∧ g.id = gid)
    (hnogoal : ∀ g ∈ db.goals, ¬(g.id = goalId ∧ g.group_id = gid))
    (hstage : 0 ≤ stage ∧ stage ≤ 4) :
    patch_goal_tone db uid gid goalId stage = (db, .ok (mkResp 200 [] Body.empty))
    ∧ delete_goal db uid gid goalId = (db, .ok (mkResp 200 [] Body.empty)) := by
  obtain ⟨g0, hg0mem, hg0own, hg0id⟩ := hgrp
  have hsome : (db.groups.find? (fun g => g.user_id == uid && g.id == gid)).isSome :=
    List.find?_isSome.mpr ⟨g0, hg0mem, by simp [hg0own, hg0id]⟩
  obtain ⟨gr, hgr⟩ := Option.isSome_iff_exists.mp hsome
  have hnostage : ¬(stage > 4 ∨ stage < 0) := by omega
  have hmap : db.goals.map (fun g =>
      if g.id == goalId && g.group_id == gid then { g with stage := stage } else g) = db.goals := by
    rw [List.map_congr_left (fun g hg => ?_)]
    · exact List.map_id db.goals
    · have hc : (g.id == goalId && g.group_id == gid) = false := by
        rw [Bool.and_eq_false_iff]
        by_cases h1 : g.id = goalId
        · right
          rw [beq_eq_false_iff_ne]
          exact fun h2 => hnogoal g hg ⟨h1, h2⟩
        · left
          rw [beq_eq_false_iff_ne]
          exact h1
      rw [hc]
      simp
  have hfilter : db.goals.filter (fun g => !(g.group_id == gid && g.id == goalId)) = db.goals := by
    apply List.filter_eq_self.mpr
    intro g hg
    have hc : (g.group_id == gid && g.id == goalId) = false := by
      rw [Bool.and_eq_false_iff]
      by_cases h1 : g.group_id = gid
      · right
        rw [beq_eq_false_iff_ne]
        exact fun h2 => hnogoal g hg ⟨h2, h1⟩
      · left
        rw [beq_eq_false_iff_ne]
        exact h1
    rw [hc]
    simp
  constructor
  · unfold patch_goal_tone
    rw [hgr]
    dsimp only
    rw [if_neg hnostage]
    rw [hmap]
  · unfold delete_goal
    rw [hgr]
    dsimp only
    rw [hfilter]

/-- Witness for C10 amended: in-range stage 2 on missing goal 999 of owned
group 1 gives the empty success and leaves the store intact, as does deleting
the missing goal. -/
theorem c10_zero_row_update_and_delete_succeed_witness :
    patch_goal_tone db1 1 1 999 2 = (db1, .ok (mkResp 200 [] Body.empty))
    ∧ delete_goal db1 1 1 999 = (db1, .ok (mkResp 200 [] Body.empty)) :=
  c10_zero_row_update_and_delete_succeed db1 1 1 999 2
    ⟨gA, by decide, by decide, by decide⟩ (by decide) (by decide)

/-- After mapping the stage update over the goal table, scanning for the
updated goal's id and group finds a row whose stage is the new stage. -/
theorem find?_after_stage_update (goals : List Goal) (goalId gid stage : Int)
    (hgoal : ∃ g ∈ goals, g.id = goalId ∧ g.group_id = gid) :
    ∃ g2, (goals.map (fun g =>
        if g.id == goalId && g.group_id == gid then { g with stage := stage }
        else g)).find? (fun g => g.id == goalId && g.group_id == gid) = some g2
      ∧ g2.stage = stage := by
  obtain ⟨g0, hg0mem, hg0id, hg0gid⟩ := hgoal
  have hcond : (g0.id == goalId && g0.group_id == gid) = true := by
    simp [hg0id, hg0gid]
  have hmem : ({ g0 with stage := stage } : Goal) ∈ goals.map (fun g =>
      if g.id == goalId && g.group_id == gid then { g with stage := stage }
      else g) := by
    have hm := List.mem_map_of_mem (fun g =>
      if g.id == goalId && g.group_id == gid then { g with stage := stage }
      else g) hg0mem
    dsimp only at hm
    rw [if_pos hcond] at hm
    exact hm
  have hpredm : (({ g0 with stage := stage } : Goal).id == goalId
      && ({ g0 with stage := stage } : Goal).group_id == gid) = true := by
    simp [hg0id, hg0gid]
  have hsome : ((goals.map (fun g =>
      if g.id == goalId && g.group_id == gid then { g with stage := stage }
      else g)).find? (fun g => g.id == goalId && g.group_id == gid)).isSome :=
    List.find?_isSome.mpr ⟨{ g0 with stage := stage }, hmem, hpredm⟩
  obtain ⟨g2, hg2⟩ := Option.isSome_iff_exists.mp hsome
  refine ⟨g2, hg2, ?_⟩
  have hg2mem := List.mem_of_find?_eq_some hg2
  have hg2pred := List.find?_some hg2
  obtain ⟨g, hgmem, hfg⟩ := List.mem_map.mp hg2mem
  by_cases hc : (g.id == goalId && g.group_id == gid) = true
  · rw [if_pos hc] at hfg
    rw [← hfg]
  · rw [if_neg hc] at hfg
    rw [← hfg] at hg2pred
    exact absurd hg2pred hc

/-- C4: a stage patch by the owning user on an existing goal: a supplied stage
in [0,4] yields an empty success body and a subsequent read of the goal
returns that stage; a stage below 0 or above 4 yields BadRequest and leaves
the store unchanged. -/
theorem c4_stage_patch_validates_and_updates (db : DB) (uid gid goalId stage : Int)
    (hgrp : ∃ g ∈ db.groups, g.user_id = uid ∧ g.id = gid)
    (hgoal : ∃ g ∈ db.goals, g.id = goalId ∧ g.group_id = gid) :
    (0 ≤ stage ∧ stage ≤ 4 →
      (patch_goal_tone db uid gid goalId stage).2 = .ok (mkResp 200 [] Body.empty)
      ∧ ∃ g2, (patch_goal_tone db uid gid goalId stage).1.goals.find?
            (fun g => g.id == goalId && g.group_id == gid) = some g2
          ∧ g2.stage = stage)
    ∧ (stage < 0 ∨ 4 < stage →
      (patch_goal_tone db uid gid goalId stage).2 = .error .BadRequest
      ∧ (patch_goal_tone db uid gid goalId stage).1 = db) := by
  obtain ⟨g0, hg0mem, hg0own, hg0id⟩ := hgrp
  have hsome : (db.groups.find? (fun g => g.user_id == uid && g.id == gid)).isSome :=
    List.find?_isSome.mpr ⟨g0, hg0mem, by simp [hg0own, hg0id]⟩
  obtain ⟨gr, hgr⟩ := Option.isSome_iff_exists.mp hsome
  constructor
  · intro hin
    have hnostage : ¬(stage > 4 ∨ stage < 0) := by omega
    have heq : patch_goal_tone db uid gid goalId stage =
        ({ db with goals := db.goals.map (fun g =>
            if g.id == goalId && g.group_id == gid then { g with stage := stage }
            else g) }, .ok (mkResp 200 [] Body.empty)) := by
      unfold patch_goal_tone
      rw [hgr]
      dsimp only
      rw [if_neg hnostage]
    rw [heq]
    exact ⟨rfl, find?_after_stage_update db.goals goalId gid stage hgoal⟩
  · intro hout
    have hyes : stage > 4 ∨ stage < 0 := by omega
    have heq : patch_goal_tone db uid gid goalId stage = (db, .error .BadRequest) := by
      unfold patch_goal_tone
      rw [hgr]
      dsimp only
      rw [if_pos hyes]
    rw [heq]
    exact ⟨rfl, rfl⟩

/-- Witness for C4: patching goal 10 of owned group 1 to stage 3 succeeds and
the goal reads back at stage 3; patching it to stage 9 yields BadRequest with
the store unchanged. -/
theorem c4_stage_patch_validates_and_updates_witness :
    ((patch_goal_tone db1 1 1 10 3).2 = .ok (mkResp 200 [] Body.empty)
      ∧ ∃ g2, (patch_goal_tone db1 1 1 10 3).1.goals.find?
            (fun g => g.id == (10:Int) && g.group_id == (1:Int)) = some g2
          ∧ g2.stage = 3)
    ∧ ((patch_goal_tone db1 1 1 10 9).2 = .error .BadRequest
      ∧ (patch_goal_tone db1 1 1 10 9).1 = db1) :=
  ⟨(c4_stage_patch_validates_and_updates db1 1 1 10 3
      ⟨gA, by decide, by decide, by decide⟩
      ⟨goal0, by decide, by decide, by decide⟩).1 (by norm_num),
   (c4_stage_patch_validates_and_updates db1 1 1 10 9
      ⟨gA, by decide, by decide, by decide⟩
      ⟨goal0, by decide, by decide, by decide⟩).2 (by norm_num)⟩

/-- C2 counterexample: user 2 sends DELETE for user 1's group 1; the delete
statement matches no row, `execute` reports zero affected rows without error,
and the handler answers 200 OK — not the NotFound the claim requires. -/
theorem c2_cross_user_delete_returns_ok :
    delete_group db1 2 1 = (db1, .ok (mkResp 200 [] Body.empty)) := rfl

/-- C2 amended: for users A ≠ B, B's GET of A's group (board or edit form)
yields NotFound, while B's POST edit and DELETE return success responses that
modify and remove no row: none of A's data is ever readable or changeable by
B, but the mutating routes answer success instead of NotFound. -/
theorem c2_cross_user_access (db : DB) (uidA uidB gid : Int) (form : GroupForm)
    (is_hx boosted : Bool)
    (hne : uidA ≠ uidB)
    (hexists : ∃ g ∈ db.groups, g.id = gid ∧ g.user_id = uidA)
    (huniq : ∀ g ∈ db.groups, g.id = gid → g.user_id = uidA) :
    get_group_route db uidB gid is_hx boosted = .error .NotFound
    ∧ edit_group db uidB gid is_hx = .error .NotFound
    ∧ (post_edit_group db uidB gid form true is_hx).1 = db
    ∧ isOkResponse (post_edit_group db uidB gid form true is_hx).2 = true
    ∧ delete_group db uidB gid = (db, .ok (mkResp 200 [] Body.empty)) := by
  have hfind : db.groups.find? (fun g => g.user_id == uidB && g.id == gid) = none := by
    apply List.find?_eq_none.mpr
    intro g hg
    simp only [Bool.and_eq_true, beq_iff_eq, not_and]
    intro hu hid
    exact hne ((huniq g hg hid).symm.trans hu)
  have hmap2 : db.groups.map (fun g =>
      if g.id == gid && g.user_id == uidB then
        { g with title := form.title, description := form.description, tone_id := form.tone_id }
      else g) = db.groups := by
    rw [List.map_congr_left (fun g hg => ?_)]
    · exact List.map_id db.groups
    · have hc : (g.id == gid && g.user_id == uidB) = false := by
        rw [Bool.and_eq_false_iff]
        by_cases h1 : g.id = gid
        · right
          rw [beq_eq_false_iff_ne]
          intro hu
          exact hne ((huniq g hg h1).symm.trans hu)
        · left
          rw [beq_eq_false_iff_ne]
          exact h1
      rw [hc]
      simp
  have hfilt : db.groups.filter (fun g => !(g.user_id == uidB && g.id == gid)) = db.groups := by
    apply List.filter_eq_self.mpr
    intro g hg
    have hc : (g.user_id == uidB && g.id == gid) = false := by
      rw [Bool.and_eq_false_iff]
      by_cases h1 : g.id = gid
      · left
        rw [beq_eq_false_iff_ne]
        intro hu
        exact hne ((huniq g hg h1).symm.trans hu)
      · right
        rw [beq_eq_false_iff_ne]
        exact h1
    rw [hc]
    simp
  refine ⟨?_, ?_, ?_, ?_, ?_⟩
  · simp [get_group_route, get_group_with_info, findGroupOwned, hfind]
  · simp [edit_group, findGroupOwned, hfind]
  · cases is_hx
    · unfold post_edit_group
      rw [hmap2]
      rfl
    · unfold post_edit_group
      rw [hmap2]
      rfl
  · cases is_hx
    · rfl
    · rfl
  · unfold delete_group
    rw [hfilt]

/-- Witness for C2 amended at a concrete store: user 2 probing user 1's group
1 gets NotFound on the reads, and no-op successes on edit and delete. -/
theorem c2_cross_user_access_witness :
    get_group_route db1 2 1 false false = .error .NotFound
    ∧ edit_group db1 2 1 false = .error .NotFound
    ∧ (post_edit_group db1 2 1 formG true false).1 = db1
    ∧ isOkResponse (post_edit_group db1 2 1 formG true false).2 = true
    ∧ delete_group db1 2 1 = (db1, .ok (mkResp 200 [] Body.empty)) :=
  c2_cross_user_access db1 1 2 1 formG false false (by decide)
    ⟨gA, by decide, by decide, by decide⟩ (by decide)

/-- C7: goal creation by the owning user with a valid CSRF token inserts the
goal with exactly the caller-supplied stage value: no range validation of the
initial stage is performed, so the insert succeeds for any i16-representable
stage value (in both response branches). -/
theorem c7_create_goal_stage_unvalidated (db : DB) (uid gid : Int) (form : GoalForm)
    (is_hx : Bool)
    (hrep : -32768 ≤ form.stage ∧ form.stage ≤ 32767)
    (hgrp : ∃ g ∈ db.groups, g.user_id = uid ∧ g.id = gid) :
    (post_new_goal db uid gid form true is_hx).1.goals
      = db.goals ++ [insertedGoal db form gid] := by
  obtain ⟨g0, hg0mem, hg0own, hg0id⟩ := hgrp
  have hsome : (findGroupOwned db uid gid).isSome :=
    List.find?_isSome.mpr ⟨g0, hg0mem, by simp [hg0own, hg0id]⟩
  obtain ⟨gr, hgr⟩ := Option.isSome_iff_exists.mp hsome
  have hgid : gr.id = gid := by
    have hp := List.find?_some hgr
    simp only [Bool.and_eq_true, beq_iff_eq] at hp
    exact hp.2
  unfold post_new_goal
  rw [if_neg (show ¬((!true) = true) by simp)]
  rw [hgr]
  simp only [insertedGoal]
  rw [hgid]
  cases is_hx
  · rfl
  · split
    · split
      · rfl
      · split
        · rfl
        · rfl
    · rfl

/-- Witness for C7: creating a goal with the wildly out-of-range stage 1000 in
owned group 1 still appends the goal with stage 1000. -/
theorem c7_create_goal_stage_unvalidated_witness :
    (post_new_goal db1 1 1 formStage1000 true false).1.goals
      = db1.goals ++ [insertedGoal db1 formStage1000 1] :=
  c7_create_goal_stage_unvalidated db1 1 1 formStage1000 false (by decide)
    ⟨gA, by decide, by decide, by decide⟩

/-- C8 counterexample: with goal 11 of group 1 stored at stage 4 (a value the
stage-patch route accepts), the fragment path renders the goal while the
full-page path panics while partitioning the board: the two lookup paths do
not agree. -/
theorem c8_paths_disagree_on_stage4 :
    Except.map (fun r => renderedGoal r.body) (get_goal_route dbStage4 1 1 11 true)
      = .ok (some goal4)
    ∧ get_goal_route dbStage4 1 1 11 false = .error .Panic := ⟨rfl, rfl⟩

/-- C8 amended: provided no goal of the group sits at stage 4 or at a negative
stage (either would make the full-page path panic while partitioning the
board), the fragment path's direct scoped query and the full-page path's scan
of the fetched goal list agree: both answer NotFound exactly when no goal with
that id exists in the group, and otherwise both render the same goal. -/
theorem c8_goal_lookup_paths_agree (db : DB) (uid gid goalId : Int)
    (hgrp : ∃ g ∈ db.groups, g.user_id = uid ∧ g.id = gid)
    (hstages : ∀ g ∈ db.goals, g.group_id = gid → 0 ≤ g.stage ∧ g.stage ≠ 4) :
    (get_goal_route db uid gid goalId true = .error HError.NotFound
      ↔ get_goal_route db uid gid goalId false = .error HError.NotFound)
    ∧ Except.map (fun r => renderedGoal r.body) (get_goal_route db uid gid goalId true)
      = Except.map (fun r => renderedGoal r.body) (get_goal_route db uid gid goalId false)
    ∧ (get_goal_route db uid gid goalId true = .error HError.NotFound
      ↔ db.goals.find? (fun g => g.id == goalId && g.group_id == gid) = none) := by
  obtain ⟨g0, hg0mem, hg0own, hg0id⟩ := hgrp
  have hsome : (get_group_with_info db uid gid).isSome :=
    List.find?_isSome.mpr ⟨g0, hg0mem, by simp [hg0own, hg0id]⟩
  obtain ⟨gr, hgr⟩ := Option.isSome_iff_exists.mp hsome
  have hstages2 : ∀ g ∈ get_goals_for_group db gid, 0 ≤ g.stage ∧ g.stage ≠ 4 := by
    intro g hg
    rw [get_goals_for_group, List.mem_filter] at hg
    exact hstages g hg.1 (by simpa using hg.2)
  obtain ⟨bs, hbs⟩ :=
    foldlM_partitionStep_isSome (get_goals_for_group db gid) [[], [], [], []] rfl hstages2
  have hpart : group_goals_by_stage (get_goals_for_group db gid) = some bs := hbs
  have hcomm : (get_goals_for_group db gid).find? (fun g => g.id == goalId)
      = db.goals.find? (fun g => g.id == goalId && g.group_id == gid) := by
    rw [get_goals_for_group, find?_filter_comm]
  rcases hf : db.goals.find? (fun g => g.id == goalId && g.group_id == gid) with _ | goal
  · have hfrag : get_goal_route db uid gid goalId true = .error .NotFound := by
      unfold get_goal_route
      rw [hgr]
      dsimp only
      rw [hf]
      rfl
    have hfull : get_goal_route db uid gid goalId false = .error .NotFound := by
      unfold get_goal_route
      rw [hgr]
      dsimp only
      rw [hpart]
      dsimp only
      rw [hcomm, hf]
      rfl
    exact ⟨Iff.intro (fun _ => hfull) (fun _ => hfrag),
      by rw [hfrag, hfull],
      Iff.intro (fun _ => hf) (fun _ => hfrag)⟩
  · have hfrag : get_goal_route db uid gid goalId true
        = .ok (mkResp 200 [] (Body.showGoalFragment goal gr)) := by
      unfold get_goal_route
      rw [hgr]
      dsimp only
      rw [hf]
      rfl
    have hfull : get_goal_route db uid gid goalId false
        = .ok (mkResp 200 [] (Body.showGoalPage uid goal gr bs)) := by
      unfold get_goal_route
      rw [hgr]
      dsimp only
      rw [hpart]
      dsimp only
      rw [hcomm, hf]
      rfl
    refine ⟨?_, ?_, ?_⟩
    · rw [hfrag, hfull]
      simp
    · rw [hfrag, hfull]
      rfl
    · rw [hfrag, hf]
      simp
/-- Witness for C8 amended: on a store whose goals all sit in the board range,
the two lookup paths of the goal-detail route map to the same rendered
goal. -/
theorem c8_goal_lookup_paths_agree_witness :
    Except.map (fun r => renderedGoal r.body) (get_goal_route db1 1 1 10 true)
      = Except.map (fun r => renderedGoal r.body) (get_goal_route db1 1 1 10 false) :=
  (c8_goal_lookup_paths_agree db1 1 1 10
    ⟨gA, by decide, by decide, by decide⟩ (by decide)).2.1

/-- C3 counterexample: the new-group form route never consults the boosted
flag, so a boosted fragment request (is-fragment true, boosted true) receives
a bare fragment while the negotiator table demands a full page. -/
theorem c3_new_group_ignores_boosted :
    (new_group db1 1 true).body.shape = BodyShape.fragment
    ∧ negotiate true true = BodyShape.fullPage := ⟨rfl, rfl⟩

/-- C3 amended: the dashboard and board (show-group) routes follow the
negotiator decision table — full page unless the request is a non-boosted
fragment request; the remaining rendering routes (group form, group edit
form, goal form, goal detail, goal edit form) branch on the fragment flag
alone and return a bare fragment whenever it is set, even when boosted. -/
theorem c3_shape_decision_per_route (db : DB) (uid gid goalId : Int)
    (stageQuery : Option Nat) (is_hx boosted : Bool) :
    (dashboard db uid is_hx boosted).body.shape = negotiate is_hx boosted
    ∧ (∀ r, get_group_route db uid gid is_hx boosted = .ok r →
        r.body.shape = negotiate is_hx boosted)
    ∧ (new_group db uid is_hx).body.shape
        = (if is_hx then BodyShape.fragment else BodyShape.fullPage)
    ∧ (∀ r, edit_group db uid gid is_hx = .ok r →
        r.body.shape = (if is_hx then BodyShape.fragment else BodyShape.fullPage))
    ∧ (∀ r, new_goal db uid gid stageQuery is_hx = .ok r →
        r.body.shape = (if is_hx then BodyShape.fragment else BodyShape.fullPage))
    ∧ (∀ r, get_goal_route db uid gid goalId is_hx = .ok r →
        r.body.shape = (if is_hx then BodyShape.fragment else BodyShape.fullPage))
    ∧ (∀ r, edit_goal db uid gid goalId is_hx = .ok r →
        r.body.shape = (if is_hx then BodyShape.fragment else BodyShape.fullPage)) := by
  refine ⟨?_, ?_, ?_, ?_, ?_, ?_, ?_⟩
  · cases is_hx <;> cases boosted <;> rfl
  · intro r h
    unfold get_group_route at h
    split at h
    · simp at h
    · split at h
      · simp at h
      · split at h
        · next hcond =>
            injection h with h2
            subst h2
            simp [negotiate, hcond, mkResp, Body.shape]
        · next hcond =>
            injection h with h2
            subst h2
            simp [negotiate, hcond, mkResp, Body.shape]
  · cases is_hx <;> rfl
  · intro r h
    unfold edit_group at h
    split at h
    · simp at h
    · split at h
      · next hcond =>
          injection h with h2
          subst h2
          simp [hcond, mkResp, Body.shape]
      · next hcond =>
          injection h with h2
          subst h2
          simp [hcond, mkResp, Body.shape]
  · intro r h
    unfold new_goal at h
    split at h
    · simp at h
    · split at h
      · next hcond =>
          injection h with h2
          subst h2
          simp [hcond, mkResp, Body.shape]
      · next hcond =>
          split at h
          · simp at h
          · injection h with h2
            subst h2
            simp [hcond, mkResp, Body.shape]
  · intro r h
    unfold get_goal_route at h
    split at h
    · simp at h
    · split at h
      · next hcond =>
          split at h
          · simp at h
          · injection h with h2
            subst h2
            simp [hcond, mkResp, Body.shape]
      · next hcond =>
          dsimp only at h
          split at h
          · simp at h
          · split at h
            · simp at h
            · injection h with h2
              subst h2
              simp [hcond, mkResp, Body.shape]
  · intro r h
    unfold edit_goal at h
    split at h
    · simp at h
    · split at h
      · next hcond =>
          split at h
          · simp at h
          · injection h with h2
            subst h2
            simp [hcond, mkResp, Body.shape]
      · next hcond =>
          dsimp only at h
          split at h
          · simp at h
          · split at h
            · simp at h
            · injection h with h2
              subst h2
              simp [hcond, mkResp, Body.shape]

/-- Witness for C3 amended: the dashboard follows the table on a boosted
fragment request, the board fragment branch matches the table on a plain
fragment request, and the group form returns a fragment for any fragment
request. -/
theorem c3_shape_decision_per_route_witness :
    (dashboard db1 1 true true).body.shape = negotiate true true
    ∧ (mkResp 200 [Directive.updateLocationAfterSwap]
        (Body.showGroupFragment gA [[goal0], [], [], []])).body.shape
      = negotiate true false
    ∧ (new_group db1 1 true).body.shape
      = (if true then BodyShape.fragment else BodyShape.fullPage) :=
  ⟨(c3_shape_decision_per_route db1 1 1 10 none true true).1,
   (c3_shape_decision_per_route db1 1 1 10 none true false).2.1
     (mkResp 200 [Directive.updateLocationAfterSwap]
       (Body.showGroupFragment gA [[goal0], [], [], []])) rfl,
   (c3_shape_decision_per_route db1 1 1 10 none true true).2.2.1⟩

/-- C5 counterexample: deleting goal 10 of owned group 1 succeeds, and the
success response carries zero notification directives, not the exactly one
the claim requires of every mutating success path. -/
theorem c5_delete_goal_attaches_no_notification :
    Except.map Response.notificationCount (delete_goal db1 1 1 10).2 = .ok 0 := rfl

/-- C5 amended: group creation attaches exactly one notification directive,
as do the fragment branches of group edit, goal creation, and goal edit; the
non-fragment branches of those three, and every success of group delete, goal
delete, and stage patch, attach none. -/
theorem c5_notification_per_mutating_path (db : DB) (uid gid goalId stage : Int)
    (gform : GroupForm) (glform : GoalForm) (is_hx : Bool) :
    Except.map Response.notificationCount (post_new_group db uid gform true).2 = .ok 1
    ∧ Except.map Response.notificationCount (post_edit_group db uid gid gform true is_hx).2
        = .ok (if is_hx then 1 else 0)
    ∧ (∀ r, (post_new_goal db uid gid glform true is_hx).2 = .ok r →
        r.notificationCount = if is_hx then 1 else 0)
    ∧ (∀ r, (post_edit_goal db uid gid goalId glform true is_hx).2 = .ok r →
        r.notificationCount = if is_hx then 1 else 0)
    ∧ Except.map Response.notificationCount (delete_group db uid gid).2 = .ok 0
    ∧ (∀ r, (delete_goal db uid gid goalId).2 = .ok r → r.notificationCount = 0)
    ∧ (∀ r, (patch_goal_tone db uid gid goalId stage).2 = .ok r →
        r.notificationCount = 0) := by
  refine ⟨?_, ?_, ?_, ?_, ?_, ?_, ?_⟩
  · rfl
  · cases is_hx <;> rfl
  · intro r h
    unfold post_new_goal at h
    repeat' first
      | split at h
      | dsimp only at h
    all_goals first
      | (injection h with h2
         subst h2
         simp [mkResp, Response.notificationCount, List.countP_cons, List.countP_nil,
           Directive.isNotification, *])
      | simp at h
  · intro r h
    unfold post_edit_goal at h
    repeat' first
      | split at h
      | dsimp only at h
    all_goals first
      | (injection h with h2
         subst h2
         simp [mkResp, Response.notificationCount, List.countP_cons, List.countP_nil,
           Directive.isNotification, *])
      | simp at h
  · rfl
  · intro r h
    unfold delete_goal at h
    repeat' first
      | split at h
      | dsimp only at h
    all_goals first
      | (injection h with h2
         subst h2
         rfl)
      | simp at h
  · intro r h
    unfold patch_goal_tone at h
    repeat' first
      | split at h
      | dsimp only at h
    all_goals first
      | (injection h with h2
         subst h2
         rfl)
      | simp at h

/-- Witness for C5 amended: concrete group creation carries one notification,
concrete group delete carries none, and the concrete redirect of a
non-fragment goal creation carries none. -/
theorem c5_notification_per_mutating_path_witness :
    Except.map Response.notificationCount (post_new_group db1 1 formG true).2 = .ok 1
    ∧ Except.map Response.notificationCount (delete_group db1 1 1).2 = .ok 0
    ∧ (mkResp 303 [Directive.location ("/groups/" ++ toString (1:Int))]
        Body.empty).notificationCount = 0 :=
  ⟨(c5_notification_per_mutating_path db1 1 1 10 2 formG formStage1000 false).1,
   (c5_notification_per_mutating_path db1 1 1 10 2 formG formStage1000 false).2.2.2.2.1,
   (c5_notification_per_mutating_path db1 1 1 10 2 formG formStage1000 false).2.2.1
     (mkResp 303 [Directive.location ("/groups/" ++ toString (1:Int))] Body.empty) rfl⟩

/-- C6 counterexample: the goal-detail route renders in both shapes without
attaching any updateLocation directive, refuting "every rendering path
attaches exactly one". -/
theorem c6_goal_detail_attaches_no_updatelocation :
    Except.map Response.updateLocationCount (get_goal_route db1 1 1 10 true) = .ok 0
    ∧ Except.map Response.updateLocationCount (get_goal_route db1 1 1 10 false)
      = .ok 0 := ⟨rfl, rfl⟩

/-- C6 amended: the dashboard attaches exactly one updateLocation directive on
every request; the group form and goal form, group edit form, and board routes
attach one exactly on their fragment branches (for the board, the non-boosted
fragment branch) and none on their full-page branches; the goal-detail and
goal-edit-form routes attach none at all; and the mutating POSTs attach one
exactly on their fragment branches. -/
theorem c6_updatelocation_per_rendering_path (db : DB) (uid gid goalId : Int)
    (stageQuery : Option Nat) (gform : GroupForm) (glform : GoalForm)
    (is_hx boosted : Bool) :
    (dashboard db uid is_hx boosted).updateLocationCount = 1
    ∧ (new_group db uid is_hx).updateLocationCount = (if is_hx then 1 else 0)
    ∧ (∀ r, edit_group db uid gid is_hx = .ok r →
        r.updateLocationCount = if is_hx then 1 else 0)
    ∧ (∀ r, get_group_route db uid gid is_hx boosted = .ok r →
        r.updateLocationCount = if is_hx && !boosted then 1 else 0)
    ∧ (∀ r, new_goal db uid gid stageQuery is_hx = .ok r →
        r.updateLocationCount = if is_hx then 1 else 0)
    ∧ (∀ r, get_goal_route db uid gid goalId is_hx = .ok r → r.updateLocationCount = 0)
    ∧ (∀ r, edit_goal db uid gid goalId is_hx = .ok r → r.updateLocationCount = 0)
    ∧ Except.map Response.updateLocationCount (post_edit_group db uid gid gform true is_hx).2
        = .ok (if is_hx then 1 else 0)
    ∧ (∀ r, (post_new_goal db uid gid glform true is_hx).2 = .ok r →
        r.updateLocationCount = if is_hx then 1 else 0)
    ∧ (∀ r, (post_edit_goal db uid gid goalId glform true is_hx).2 = .ok r →
        r.updateLocationCount = if is_hx then 1 else 0) := by
  refine ⟨?_, ?_, ?_, ?_, ?_, ?_, ?_, ?_, ?_, ?_⟩
  · cases is_hx <;> cases boosted <;> rfl
  · cases is_hx <;> rfl
  · intro r h
    unfold edit_group at h
    repeat' first
      | split at h
      | dsimp only at h
    all_goals first
      | (injection h with h2
         subst h2
         simp [mkResp, Response.updateLocationCount, List.countP_cons, List.countP_nil,
           Directive.isUpdateLocation, *])
      | simp at h
  · intro r h
    unfold get_group_route at h
    repeat' first
      | split at h
      | dsimp only at h
    all_goals first
      | (injection h with h2
         subst h2
         simp [mkResp, Response.updateLocationCount, List.countP_cons, List.countP_nil,
           Directive.isUpdateLocation, *])
      | simp at h
  · intro r h
    unfold new_goal at h
    repeat' first
      | split at h
      | dsimp only at h
    all_goals first
      | (injection h with h2
         subst h2
         simp [mkResp, Response.updateLocationCount, List.countP_cons, List.countP_nil,
           Directive.isUpdateLocation, *])
      | simp at h
  · intro r h
    unfold get_goal_route at h
    repeat' first
      | split at h
      | dsimp only at h
    all_goals first
      | (injection h with h2
         subst h2
         rfl)
      | simp at h
  · intro r h
    unfold edit_goal at h
    repeat' first
      | split at h
      | dsimp only at h
    all_goals first
      | (injection h with h2
         subst h2
         rfl)
      | simp at h
  · cases is_hx <;> rfl
  · intro r h
    unfold post_new_goal at h
    repeat' first
      | split at h
      | dsimp only at h
    all_goals first
      | (injection h with h2
         subst h2
         simp [mkResp, Response.updateLocationCount, List.countP_cons, List.countP_nil,
           Directive.isUpdateLocation, *])
      | simp at h
  · intro r h
    unfold post_edit_goal at h
    repeat' first
      | split at h
      | dsimp only at h
    all_goals first
      | (injection h with h2
         subst h2
         simp [mkResp, Response.updateLocationCount, List.countP_cons, List.countP_nil,
           Directive.isUpdateLocation, *])
      | simp at h

/-- Witness for C6 amended: the dashboard fragment response carries exactly
one updateLocation directive, the full-page group form carries none, and the
concrete goal-detail fragment response carries none. -/
theorem c6_updatelocation_per_rendering_path_witness :
    (dashboard db1 1 true false).updateLocationCount = 1
    ∧ (new_group db1 1 false).updateLocationCount = (if false then 1 else 0)
    ∧ (mkResp 200 [] (Body.showGoalFragment goal0 gA)).updateLocationCount = 0 :=
  ⟨(c6_updatelocation_per_rendering_path db1 1 1 10 none formG formStage1000 true false).1,
   (c6_updatelocation_per_rendering_path db1 1 1 10 none formG formStage1000 false false).2.1,
   (c6_updatelocation_per_rendering_path db1 1 1 10 none formG formStage1000 true false).2.2.2.2.2.1
     (mkResp 200 [] (Body.showGoalFragment goal0 gA)) rfl⟩

end SassyGoals
